import Mathlib

/-!
Shallow embedding of `jaseci_ai_kit/modules/translator/translator.py`.

The module loads a pretrained MBart model and tokenizer at import time
(lines 9-20), then defines three actions: `translate` (lines 23-54),
`fill_mask` (lines 57-88) and `supported_languages` (lines 91-99).

External collaborators (the transformers model/tokenizer and torch) are
parameterized as a context `Ctx` of abstract functions; the Python-level
control flow, validation, exception handling and the module-level name
bindings are embedded faithfully.

A central point of the embedding: the module-level name
`supported_languages` is bound twice.  Line 20 binds it to
`list(tokenizer.lang_code_to_id.keys())`; the `def supported_languages`
at lines 91-99 then rebinds the same module-level name to the function
object.  A value of `SLValue` records which of the two a given name
binding holds.
-/

namespace Translator

/-- Python exception values that the action bodies can raise. -/
inductive PyError where
  | valueError (msg : String)
  | typeError (msg : String)
  | keyError (msg : String)
  | runtimeError (msg : String)
deriving DecidableEq, Repr

/-- Python's `str(e)` on a caught exception: the textual message used as
the HTTP detail at lines 54 and 88. -/
def PyError.str : PyError → String
  | .valueError m => m
  | .typeError m => m
  | .keyError m => m
  | .runtimeError m => m

/-- The `fastapi.HTTPException` raised at lines 54 and 88. -/
structure HTTPException where
  status_code : Nat
  detail : String
deriving DecidableEq, Repr

/-- Model of `traceback.format_exc()` printed at lines 53 and 87: a full
diagnostic trace whose text mentions the original exception. -/
def formatExc (e : PyError) : String :=
  "Traceback (most recent call last): " ++ e.str

/-- The value bound to the module-level name `supported_languages`:
either the list of language codes built at line 20, or the function
object defined at lines 91-99 (which rebinds the same global name). -/
inductive SLValue where
  | list (codes : List String)
  | func
deriving DecidableEq, Repr

/-- Python's `x not in v` for the module-level `supported_languages`
binding (lines 37, 39, 71).  Membership in a list is a boolean test;
membership in a function object raises `TypeError`. -/
def pyNotIn (x : String) : SLValue → Except PyError Bool
  | .list l => .ok (decide (x ∉ l))
  | .func => .error (.typeError "argument of type 'function' is not iterable")

/-- Python dict lookup `tokenizer.lang_code_to_id[tgt_lang]` (line 45):
`KeyError` on a missing key. -/
def dictLookup (d : List (String × Nat)) (k : String) : Except PyError Nat :=
  match d.find? (fun p => p.1 == k) with
  | some p => .ok p.2
  | none => .error (.keyError ("'" ++ k ++ "'"))

/-- The torch message for converting a non-scalar tensor to a scalar. -/
def tensorMsg (n : Nat) : String :=
  "a Tensor with " ++ toString n ++ " elements cannot be converted to Scalar"

/-- Model of `torch.Tensor.item()` on the result of `.nonzero()` (line
81): succeeds only when the tensor holds exactly one element. -/
def tensorItem (l : List Nat) : Except PyError Nat :=
  match l with
  | [x] => .ok x
  | _ => .error (.runtimeError (tensorMsg l.length))

/-- Tensor row indexing `logits[0, masked_index]` (line 82): `IndexError`
out of bounds. -/
def tensorIndex {α : Type} (l : List α) (i : Nat) : Except PyError α :=
  match l.get? i with
  | some x => .ok x
  | none => .error (.runtimeError ("index " ++ toString i ++ " is out of bounds"))

/-- Positions of the mask token in the encoded sequence:
`(input_ids[0] == tokenizer.mask_token_id).nonzero()` (line 81). -/
def maskPositions (ids : List Nat) (maskId : Nat) : List Nat :=
  (ids.enum.filter (fun p => p.2 == maskId)).map Prod.fst

/-- Helper for `pySplit`: walk the characters, accumulating the current
word in reverse. -/
def pySplitAux : List Char → List Char → List String
  | [], cur => if cur.isEmpty then [] else [String.mk cur.reverse]
  | c :: rest, cur =>
    if c.isWhitespace then
      if cur.isEmpty then pySplitAux rest []
      else String.mk cur.reverse :: pySplitAux rest []
    else pySplitAux rest (c :: cur)

/-- Python's `str.split()` with no argument (line 84): split on runs of
whitespace, discarding empty pieces. -/
def pySplit (s : String) : List String :=
  pySplitAux s.data []

/-- External collaborators: the pretrained model and tokenizer handles
loaded by `setup()` (lines 9-16), abstracted as pure functions.  The
embedding never constrains them; claims that depend on their behavior
take explicit hypotheses. -/
structure Ctx where
  /-- The table `tokenizer.lang_code_to_id`, as an ordered association
  list. -/
  lang_code_to_id : List (String × Nat)
  /-- The id `tokenizer.mask_token_id`. -/
  mask_token_id : Nat
  /-- Encoding `tokenizer(text, return_tensors="pt")` (line 46): the
  current source language and the batch of texts give the batch of
  input ids. -/
  encode : String → List String → List (List Nat)
  /-- Generation `model.generate(**encoded, forced_bos_token_id=...)`
  (lines 47-50). -/
  generate : List (List Nat) → Nat → List (List Nat)
  /-- One row of `tokenizer.batch_decode(..., skip_special_tokens=True)`
  (line 51). -/
  decodeRow : List Nat → String
  /-- Encoding `tokenizer([text], add_special_tokens=False)` followed by
  taking `["input_ids"][0]` (lines 75-77). -/
  encodeNoSpecial : String → List Nat
  /-- Forward pass `model(input_ids).logits[0]` (line 79): per-position
  logits. -/
  forward : List Nat → List (List Rat)
  /-- Normalization `softmax(dim=0)` over the logits at the mask
  position (line 82). -/
  softmax : List Rat → List Rat
  /-- Decoding `tokenizer.decode(predictions)` (line 84). -/
  decode : List Nat → String

/-- The language-code list built at line 20:
`list(tokenizer.lang_code_to_id.keys())`. -/
def supportedCodes (ctx : Ctx) : List String :=
  ctx.lang_code_to_id.map Prod.fst

/-- The binding of the module-level name `supported_languages` right
after line 20 executes. -/
def bindingAfterLine20 (ctx : Ctx) : SLValue :=
  .list (supportedCodes ctx)

/-- Modelled from the spec: the `jaseci_action` decorator lives in
`jaseci.actions.live_actions`, outside the packaged source; per the
spec's description of the host action-dispatch framework it registers
the action and leaves the name bound to the function object.  Hence
after the `def supported_languages` at lines 91-99 the module-level
name `supported_languages` is rebound to the function object. -/
def bindingAfterInit : SLValue := .func

/-- The mutable process-wide state the actions can read and write: the
tokenizer's `src_lang` field (written at line 44), the module-level
`supported_languages` name binding, and an opaque identifier standing
for the model handle (never written by any action). -/
structure St where
  src_lang : String
  binding : SLValue
  modelHandle : Nat
deriving DecidableEq, Repr

/-- The module state right after import: the name `supported_languages`
holds the function object (lines 91-99 rebound it). -/
def initState (src0 : String) (h : Nat) : St :=
  { src_lang := src0, binding := bindingAfterInit, modelHandle := h }

/-- The argument `text: Union[str, List[str]]` (line 24). -/
inductive TextInput where
  | str (s : String)
  | list (l : List String)
deriving DecidableEq, Repr

/-- Lines 42-43: a single string is normalized to a one-element list. -/
def textList : TextInput → List String
  | .str s => [s]
  | .list l => l

/-- The `try` body of `translate` (lines 37-51), threading the mutable
state: mutation at line 44 persists even when a later step raises. -/
def translateBody (ctx : Ctx) (text : TextInput) (src_lang tgt_lang : String)
    (st : St) : Except PyError (List String) × St :=
  match pyNotIn src_lang st.binding with
  | .error e => (.error e, st)
  | .ok true =>
      (.error (.valueError ("Unsupported source language: " ++ src_lang)), st)
  | .ok false =>
    match pyNotIn tgt_lang st.binding with
    | .error e => (.error e, st)
    | .ok true =>
        (.error (.valueError ("Unsupported target language: " ++ tgt_lang)), st)
    | .ok false =>
      let texts := textList text
      let st := { st with src_lang := src_lang }
      match dictLookup ctx.lang_code_to_id tgt_lang with
      | .error e => (.error e, st)
      | .ok forced_bos_token_id =>
        let encoded := ctx.encode st.src_lang texts
        let generated_tokens := ctx.generate encoded forced_bos_token_id
        (.ok (generated_tokens.map ctx.decodeRow), st)

/-- Result of one action call: the value returned or the
`HTTPException` raised, the lines printed by the `except` handler, and
the process state afterwards. -/
structure Outcome (α : Type) where
  result : Except HTTPException α
  log : List String
  state : St
deriving Repr

/-- The `except Exception` wrapper shared by `translate` (lines 52-54)
and `fill_mask` (lines 86-88): print the traceback and raise
`HTTPException(status_code=500, detail=str(e))`. -/
def wrap {α : Type} (r : Except PyError α × St) : Outcome α :=
  match r with
  | (.ok v, st) => ⟨.ok v, [], st⟩
  | (.error e, st) => ⟨.error ⟨500, e.str⟩, [formatExc e], st⟩

/-- The action `translate` (lines 23-54). -/
def translate (ctx : Ctx) (text : TextInput) (src_lang tgt_lang : String)
    (st : St) : Outcome (List String) :=
  wrap (translateBody ctx text src_lang tgt_lang st)

/-- The wrapping at line 74: sentence-boundary markers and the
source-language tag around the text. -/
def wrapText (text src_lang : String) : String :=
  "</s> " ++ text ++ " </s> " ++ src_lang

/-- Descending-probability order on (probability, token-id) pairs, ties
broken by ascending token id: the order `torch.topk` returns. -/
def rankRel (a b : Rat × Nat) : Prop :=
  b.1 < a.1 ∨ (a.1 = b.1 ∧ a.2 ≤ b.2)

instance : DecidableRel rankRel := fun a b => by
  unfold rankRel; infer_instance

instance : IsTrans (Rat × Nat) rankRel where
  trans a b c hab hbc := by
    rcases hab with hab | ⟨hab1, hab2⟩
    · rcases hbc with hbc | ⟨hbc1, _⟩
      · exact Or.inl (lt_trans hbc hab)
      · exact Or.inl (hbc1 ▸ hab)
    · rcases hbc with hbc | ⟨hbc1, hbc2⟩
      · exact Or.inl (hab1 ▸ hbc)
      · exact Or.inr ⟨hab1.trans hbc1, hab2.trans hbc2⟩

instance : IsTotal (Rat × Nat) rankRel where
  total a b := by
    rcases lt_trichotomy a.1 b.1 with h | h | h
    · exact Or.inr (Or.inl h)
    · rcases Nat.le_total a.2 b.2 with h2 | h2
      · exact Or.inl (Or.inr ⟨h, h2⟩)
      · exact Or.inr (Or.inr ⟨h.symm, h2⟩)
    · exact Or.inl (Or.inl h)

/-- The (probability, token-id) pairs of a probability vector: the id
is the position in the vector. -/
def indexedProbs (probs : List Rat) : List (Rat × Nat) :=
  probs.enum.map (fun p => (p.2, p.1))

/-- Model of `probs.topk(topk)` (line 83): the `topk` largest entries
with their indices, sorted by descending value; `RuntimeError` when
`topk` exceeds the vector length. -/
def topkPairs (probs : List Rat) (k : Nat) : Except PyError (List (Rat × Nat)) :=
  if k ≤ probs.length then
    .ok (((indexedProbs probs).insertionSort rankRel).take k)
  else
    .error (.runtimeError ("selected index k out of range"))

/-- The `try` body of `fill_mask` (lines 71-85). -/
def fillMaskBody (ctx : Ctx) (text : String) (src_lang : String) (topk : Nat)
    (st : St) : Except PyError (List String) × St :=
  match pyNotIn src_lang st.binding with
  | .error e => (.error e, st)
  | .ok true =>
      (.error (.valueError ("Unsupported source language: " ++ src_lang)), st)
  | .ok false =>
    let text := wrapText text src_lang
    let input_ids := ctx.encodeNoSpecial text
    let logits := ctx.forward input_ids
    match tensorItem (maskPositions input_ids ctx.mask_token_id) with
    | .error e => (.error e, st)
    | .ok masked_index =>
      match tensorIndex logits masked_index with
      | .error e => (.error e, st)
      | .ok row =>
        let probs := ctx.softmax row
        match topkPairs probs topk with
        | .error e => (.error e, st)
        | .ok predictions =>
          (.ok (pySplit (ctx.decode (predictions.map Prod.snd))), st)

/-- The action `fill_mask` (lines 57-88). -/
def fill_mask (ctx : Ctx) (text : String) (src_lang : String) (topk : Nat)
    (st : St) : Outcome (List String) :=
  wrap (fillMaskBody ctx text src_lang topk st)

/-- Following the words of the spec for `fill_mask`: wrap the text with
sentence-boundary markers and the source-language tag; encode it without
adding special tokens; run exactly one forward pass of the model (no
generation loop); locate the mask token's position in the encoded
sequence; take the softmax of the logits at that position; select the
`topk` highest-probability token ids; decode them and split into
individual predicted tokens. -/
def fillMaskSpecSteps (ctx : Ctx) (text src_lang : String) (topk : Nat) :
    Except PyError (List String) :=
  let wrapped := "</s> " ++ text ++ " </s> " ++ src_lang
  let input_ids := ctx.encodeNoSpecial wrapped
  let logits := ctx.forward input_ids
  match tensorItem (maskPositions input_ids ctx.mask_token_id) with
  | .error e => .error e
  | .ok masked_index =>
    match tensorIndex logits masked_index with
    | .error e => .error e
    | .ok row =>
      let probs := ctx.softmax row
      match topkPairs probs topk with
      | .error e => .error e
      | .ok pairs => .ok (pySplit (ctx.decode (pairs.map Prod.snd)))

/-- The `supported_languages` action (lines 91-99): `return
supported_languages` returns whatever value the module-level name holds
at call time; no exception handler, no state change. -/
def supported_languages_action (st : St) : Outcome SLValue :=
  ⟨.ok st.binding, [], st⟩

/-- Boolean discriminator: does an `SLValue` hold the line-20 list? -/
def SLValue.isList : SLValue → Bool
  | .list _ => true
  | .func => false

/-- A concrete external context used to instantiate theorems that carry
hypotheses on concrete inputs. -/
def testCtx : Ctx where
  lang_code_to_id := [("en_XX", 250004), ("fr_XX", 250008)]
  mask_token_id := 250026
  encode := fun _ texts => texts.map (fun _ => [1, 2])
  generate := fun enc _ => enc.map (fun _ => [7])
  decodeRow := fun _ => "bonjour"
  encodeNoSpecial := fun _ => [5, 250026, 6]
  forward := fun ids => ids.map (fun _ => [(4 : Rat), 1, 3, 2])
  softmax := fun l => l
  decode := fun ids => String.intercalate " " (ids.map (fun i => "t" ++ toString i))

/-- A concrete context whose encoder yields no mask token. -/
def testCtxNoMask : Ctx :=
  { testCtx with encodeNoSpecial := fun _ => [5, 6] }

/-- The counterfactual module state in which the name
`supported_languages` still holds the line-20 list. -/
def stList : St :=
  { src_lang := "en_XX", binding := bindingAfterLine20 testCtx, modelHandle := 0 }

end Translator

namespace Translator

/-- C2: after module initialization the module-level name
`supported_languages` no longer holds the line-20 list but the function
object, so the membership test at line 37 raises a `TypeError` inside
the `try` block, the call is surfaced as the generic 500 service error,
and `translate` never returns normally for any input. -/
theorem translate_never_returns_after_init (ctx : Ctx) (st : St)
    (text : TextInput) (src_lang tgt_lang : String)
    (h : st.binding = bindingAfterInit) :
    bindingAfterInit ≠ bindingAfterLine20 ctx ∧
    pyNotIn src_lang st.binding =
      .error (.typeError "argument of type 'function' is not iterable") ∧
    (translate ctx text src_lang tgt_lang st).result =
      .error ⟨500, "argument of type 'function' is not iterable"⟩ ∧
    ∀ v, (translate ctx text src_lang tgt_lang st).result ≠ .ok v := by
  obtain ⟨sl, bnd, mh⟩ := st
  have hb : bnd = bindingAfterInit := h
  subst hb
  have h3 : (translate ctx text src_lang tgt_lang
      ⟨sl, bindingAfterInit, mh⟩).result =
      Except.error ⟨500, "argument of type 'function' is not iterable"⟩ := rfl
  refine ⟨?_, rfl, h3, ?_⟩
  · intro hco
    cases hco
  · intro v hv
    rw [h3] at hv
    cases hv

/-- Witness for `translate_never_returns_after_init`: the concrete
post-import state and a concrete call. -/
theorem translate_never_returns_after_init_witness :
    (translate testCtx (.str "Hello, how are you?") "en_XX" "fr_XX"
        (initState "en_XX" 0)).result =
      .error ⟨500, "argument of type 'function' is not iterable"⟩ :=
  (translate_never_returns_after_init testCtx (initState "en_XX" 0)
    (.str "Hello, how are you?") "en_XX" "fr_XX" rfl).2.2.1

/-- C1 (code bug): at the post-import module state, a call whose source
language is unsupported does fail before any generation, but not with
the unsupported-language validation message: the membership test itself
raises a `TypeError` whose text becomes the 500 detail, and the result
is insensitive to the model's generation function. -/
theorem translate_unsupported_lang_not_validation_error :
    (translate testCtx (.str "hello") "xx_ZZ" "fr_XX" (initState "en_XX" 0)).result =
      .error ⟨500, "argument of type 'function' is not iterable"⟩ ∧
    (translate testCtx (.str "hello") "xx_ZZ" "fr_XX" (initState "en_XX" 0)).result ≠
      .error ⟨500, "Unsupported source language: xx_ZZ"⟩ ∧
    ∀ g, (translate { testCtx with generate := g } (.str "hello") "xx_ZZ" "fr_XX"
        (initState "en_XX" 0)).result =
      (translate testCtx (.str "hello") "xx_ZZ" "fr_XX" (initState "en_XX" 0)).result := by
  refine ⟨rfl, ?_, fun g => rfl⟩
  intro hco
  have h1 : (translate testCtx (.str "hello") "xx_ZZ" "fr_XX" (initState "en_XX" 0)).result =
      Except.error ⟨500, "argument of type 'function' is not iterable"⟩ := rfl
  rw [h1] at hco
  exact absurd (congrArg HTTPException.detail (Except.error.inj hco)) (by decide)

/-- C3 (code bug): at the post-import module state the
`supported_languages` action returns the function object bound to the
module-level name, which is not the line-20 list of language codes. -/
theorem supported_languages_returns_function_object :
    (supported_languages_action (initState "en_XX" 0)).result = .ok SLValue.func ∧
    SLValue.isList (initState "en_XX" 0).binding = false ∧
    ∀ codes : List String,
      (supported_languages_action (initState "en_XX" 0)).result ≠
        .ok (.list codes) := by
  refine ⟨rfl, rfl, fun codes hco => ?_⟩
  cases hco

/-- The rank order only goes from larger to smaller probabilities. -/
theorem rankRel_fst_le {a b : Rat × Nat} (h : rankRel a b) : b.1 ≤ a.1 := by
  rcases h with h | ⟨h1, _⟩
  · exact le_of_lt h
  · exact le_of_eq h1.symm

/-- Membership in the indexed probability vector means the probability
stands at that index. -/
theorem mem_indexedProbs {probs : List Rat} {p : Rat × Nat} :
    p ∈ indexedProbs probs ↔ probs[p.2]? = some p.1 := by
  unfold indexedProbs
  constructor
  · intro hp
    obtain ⟨⟨i, a⟩, hmem, hEq⟩ := List.mem_map.mp hp
    cases hEq
    exact List.mk_mem_enum_iff_getElem?.mp hmem
  · intro hp
    exact List.mem_map.mpr ⟨(p.2, p.1), List.mk_mem_enum_iff_getElem?.mpr hp, rfl⟩

/-- A successful topk call means the requested count fits the vector,
and the result is the `k`-prefix of the rank-sorted pairs. -/
theorem topkPairs_eq {probs : List Rat} {k : Nat} {pairs : List (Rat × Nat)}
    (h : topkPairs probs k = .ok pairs) :
    k ≤ probs.length ∧
    pairs = ((indexedProbs probs).insertionSort rankRel).take k := by
  unfold topkPairs at h
  split at h
  · exact ⟨by assumption, (Except.ok.inj h).symm⟩
  · cases h

/-- The topk result has exactly `k` entries. -/
theorem topkPairs_length {probs : List Rat} {k : Nat}
    {pairs : List (Rat × Nat)} (h : topkPairs probs k = .ok pairs) :
    pairs.length = k := by
  obtain ⟨hk, rfl⟩ := topkPairs_eq h
  rw [List.length_take, List.length_insertionSort]
  unfold indexedProbs
  rw [List.length_map, List.enum_length]
  exact min_eq_left hk

/-- The topk result is sorted by the rank order. -/
theorem topkPairs_sorted {probs : List Rat} {k : Nat}
    {pairs : List (Rat × Nat)} (h : topkPairs probs k = .ok pairs) :
    pairs.Sorted rankRel := by
  obtain ⟨hk, rfl⟩ := topkPairs_eq h
  exact List.Pairwise.sublist (List.take_sublist _ _)
    (List.sorted_insertionSort rankRel _)

/-- The probabilities of the topk result are descending in order. -/
theorem topkPairs_sorted_fst {probs : List Rat} {k : Nat}
    {pairs : List (Rat × Nat)} (h : topkPairs probs k = .ok pairs) :
    (pairs.map Prod.fst).Sorted (fun a b => b ≤ a) := by
  have hs := topkPairs_sorted h
  rw [List.Sorted, List.pairwise_map]
  exact hs.imp rankRel_fst_le

/-- Every returned pair is a genuine entry of the probability vector. -/
theorem topkPairs_mem {probs : List Rat} {k : Nat}
    {pairs : List (Rat × Nat)} {p : Rat × Nat}
    (h : topkPairs probs k = .ok pairs) (hp : p ∈ pairs) :
    probs[p.2]? = some p.1 := by
  obtain ⟨hk, rfl⟩ := topkPairs_eq h
  exact mem_indexedProbs.mp
    ((List.mem_insertionSort rankRel).mp (List.take_subset _ _ hp))

/-- Completeness: no unselected probability exceeds a selected one. -/
theorem topkPairs_complete {probs : List Rat} {k : Nat}
    {pairs : List (Rat × Nat)} {p : Rat × Nat} {j : Nat} {q : Rat}
    (h : topkPairs probs k = .ok pairs) (hp : p ∈ pairs)
    (hq : probs[j]? = some q) (hj : j ∉ pairs.map Prod.snd) :
    q ≤ p.1 := by
  obtain ⟨hk, hpairs⟩ := topkPairs_eq h
  set s := (indexedProbs probs).insertionSort rankRel with hs
  have hsorted : s.Sorted rankRel := List.sorted_insertionSort rankRel _
  have hmem : (q, j) ∈ s :=
    (List.mem_insertionSort rankRel).mpr (mem_indexedProbs.mpr hq)
  rw [← List.take_append_drop k s] at hmem hsorted
  rcases List.mem_append.mp hmem with hm | hm
  · refine absurd (List.mem_map.mpr ⟨(q, j), ?_, rfl⟩) hj
    rw [hpairs]
    exact hm
  · have h3 := (List.pairwise_append.mp hsorted).2.2
    refine rankRel_fst_le (h3 p ?_ (q, j) hm)
    rw [← hpairs]
    exact hp

/-- On a body error the except-wrapper yields HTTP 500 carrying the
original message and logs the diagnostic trace. -/
theorem wrap_error {α : Type} (r : Except PyError α × St) (e : PyError)
    (h : r.1 = .error e) :
    (wrap r).result = .error ⟨500, e.str⟩ ∧ (wrap r).log = [formatExc e] := by
  obtain ⟨r1, st⟩ := r
  cases r1 with
  | ok v => cases h
  | error e2 =>
      have he : e2 = e := Except.error.inj h
      subst he
      exact ⟨rfl, rfl⟩

/-- Any error the wrapper produces has status 500. -/
theorem wrap_status {α : Type} (r : Except PyError α × St)
    (he : HTTPException) (h : (wrap r).result = .error he) :
    he.status_code = 500 := by
  obtain ⟨r1, st⟩ := r
  cases r1 with
  | ok v => cases h
  | error e2 =>
      have h2 : (⟨500, e2.str⟩ : HTTPException) = he := Except.error.inj h
      rw [← h2]

/-- The wrapper passes the body's final state through unchanged. -/
theorem wrap_state {α : Type} (r : Except PyError α × St) :
    (wrap r).state = r.2 := by
  obtain ⟨r1, st⟩ := r
  cases r1 <;> rfl

/-- The body of `translate` either leaves the state untouched (failure
before line 44) or sets the tokenizer's source language to the call's
`src_lang` and changes nothing else. -/
theorem translateBody_state (ctx : Ctx) (text : TextInput)
    (src_lang tgt_lang : String) (st : St) :
    (translateBody ctx text src_lang tgt_lang st).2 = st ∨
    (translateBody ctx text src_lang tgt_lang st).2 =
      { st with src_lang := src_lang } := by
  unfold translateBody
  repeat' split
  all_goals first | (left; rfl) | (right; rfl)

/-- The body of `fill_mask` never changes the state. -/
theorem fillMaskBody_state (ctx : Ctx) (text src_lang : String)
    (topk : Nat) (st : St) :
    (fillMaskBody ctx text src_lang topk st).2 = st := by
  unfold fillMaskBody
  repeat' first | split | dsimp only

/-- The wrapper returns a value exactly when the body does. -/
theorem wrap_ok {α : Type} (r : Except PyError α × St) (v : α) :
    (wrap r).result = .ok v ↔ r.1 = .ok v := by
  obtain ⟨r1, st⟩ := r
  cases r1 <;> simp [wrap]

/-- A successful `translate` body resolved the target language in the
language table and returned the batch-decoded generation rows for the
normalized input batch. -/
theorem translateBody_ok_characterization (ctx : Ctx) (st : St)
    (text : TextInput) (src_lang tgt_lang : String) (out : List String)
    (h : (translateBody ctx text src_lang tgt_lang st).1 = .ok out) :
    ∃ forced, dictLookup ctx.lang_code_to_id tgt_lang = .ok forced ∧
      out = (ctx.generate (ctx.encode src_lang (textList text)) forced).map
        ctx.decodeRow := by
  unfold translateBody at h
  split at h
  · simp at h
  · simp at h
  · split at h
    · simp at h
    · simp at h
    · dsimp only at h
      split at h
      · simp at h
      · rename_i forced hforced
        exact ⟨forced, hforced, (Except.ok.inj h).symm⟩

/-- C6: a successful `translate` call returns one translated string per
input string, in input order: the i-th output is the decoding of the
i-th generated row — given that the external model emits one generated
row per encoded input. -/
theorem translate_one_output_per_input (ctx : Ctx) (st : St)
    (text : TextInput) (src_lang tgt_lang : String) (out : List String)
    (hgen : ∀ texts forced,
      (ctx.generate (ctx.encode src_lang texts) forced).length = texts.length)
    (h : (translate ctx text src_lang tgt_lang st).result = .ok out) :
    out.length = (textList text).length ∧
    ∃ forced, dictLookup ctx.lang_code_to_id tgt_lang = .ok forced ∧
      ∀ i : Nat, out[i]? =
        ((ctx.generate (ctx.encode src_lang (textList text)) forced)[i]?).map
          ctx.decodeRow := by
  obtain ⟨forced, hf, hout⟩ := translateBody_ok_characterization ctx st text
    src_lang tgt_lang out ((wrap_ok (translateBody ctx text src_lang tgt_lang st) out).mp h)
  subst hout
  refine ⟨?_, forced, hf, ?_⟩
  · rw [List.length_map]
    exact hgen (textList text) forced
  · intro i
    rw [List.getElem?_map]

/-- Witness for `translate_one_output_per_input`: a concrete two-string
batch yields a two-string result. -/
theorem translate_one_output_per_input_witness :
    (translate testCtx (.list ["a", "b"]) "en_XX" "fr_XX" stList).result =
      .ok ["bonjour", "bonjour"] ∧
    (["bonjour", "bonjour"] : List String).length =
      (textList (.list ["a", "b"])).length :=
  ⟨rfl,
   (translate_one_output_per_input testCtx stList (.list ["a", "b"]) "en_XX"
      "fr_XX" ["bonjour", "bonjour"]
      (fun texts forced => by simp [testCtx]) rfl).1⟩

/-- A successful `fill_mask` body passed the language check, found a
unique mask position, read the logits row there, took the softmax and
the topk, and returned the split decoding of the selected ids. -/
theorem fillMaskBody_ok_characterization (ctx : Ctx) (st : St)
    (text src_lang : String) (k : Nat) (preds : List String)
    (h : (fillMaskBody ctx text src_lang k st).1 = .ok preds) :
    pyNotIn src_lang st.binding = .ok false ∧
    ∃ masked_index row pairs,
      tensorItem (maskPositions (ctx.encodeNoSpecial (wrapText text src_lang))
          ctx.mask_token_id) = .ok masked_index ∧
      tensorIndex (ctx.forward (ctx.encodeNoSpecial (wrapText text src_lang)))
          masked_index = .ok row ∧
      topkPairs (ctx.softmax row) k = .ok pairs ∧
      preds = pySplit (ctx.decode (pairs.map Prod.snd)) := by
  unfold fillMaskBody at h
  cases hsl : pyNotIn src_lang st.binding with
  | error e => rw [hsl] at h; cases h
  | ok b =>
    rw [hsl] at h
    cases b with
    | true => cases h
    | false =>
      dsimp only at h
      cases hmi : tensorItem (maskPositions
          (ctx.encodeNoSpecial (wrapText text src_lang)) ctx.mask_token_id) with
      | error e => rw [hmi] at h; cases h
      | ok masked_index =>
        rw [hmi] at h
        dsimp only at h
        cases hrow : tensorIndex (ctx.forward
            (ctx.encodeNoSpecial (wrapText text src_lang))) masked_index with
        | error e => rw [hrow] at h; cases h
        | ok row =>
          rw [hrow] at h
          dsimp only at h
          cases hpk : topkPairs (ctx.softmax row) k with
          | error e => rw [hpk] at h; cases h
          | ok pairs =>
            rw [hpk] at h
            exact ⟨rfl, masked_index, row, pairs, rfl, hrow, hpk,
              (Except.ok.inj h).symm⟩

/-- C7: a successful `fill_mask` call with `topk = k` selects exactly
`k` token ids at the unique mask position, ordered by descending
model-assigned probability, with no unselected probability exceeding a
selected one; the result is the whitespace-split decoding of that id
sequence, hence has exactly `k` entries whenever decoding yields one
word per id. -/
theorem fill_mask_topk_descending (ctx : Ctx) (st : St)
    (text src_lang : String) (k : Nat) (preds : List String)
    (h : (fill_mask ctx text src_lang k st).result = .ok preds) :
    ∃ masked_index row pairs,
      tensorItem (maskPositions (ctx.encodeNoSpecial (wrapText text src_lang))
          ctx.mask_token_id) = .ok masked_index ∧
      tensorIndex (ctx.forward (ctx.encodeNoSpecial (wrapText text src_lang)))
          masked_index = .ok row ∧
      topkPairs (ctx.softmax row) k = .ok pairs ∧
      pairs.length = k ∧
      (pairs.map Prod.fst).Sorted (fun a b => b ≤ a) ∧
      (∀ p ∈ pairs, (ctx.softmax row)[p.2]? = some p.1) ∧
      (∀ p ∈ pairs, ∀ j q, (ctx.softmax row)[j]? = some q →
        j ∉ pairs.map Prod.snd → q ≤ p.1) ∧
      preds = pySplit (ctx.decode (pairs.map Prod.snd)) ∧
      ((pySplit (ctx.decode (pairs.map Prod.snd))).length =
          (pairs.map Prod.snd).length → preds.length = k) := by
  obtain ⟨hsl, masked_index, row, pairs, hmi, hrow, hpk, hpreds⟩ :=
    fillMaskBody_ok_characterization ctx st text src_lang k preds
      ((wrap_ok (fillMaskBody ctx text src_lang k st) preds).mp h)
  refine ⟨masked_index, row, pairs, hmi, hrow, hpk, topkPairs_length hpk,
    topkPairs_sorted_fst hpk, fun p hp => topkPairs_mem hpk hp,
    fun p hp j q hq hj => topkPairs_complete hpk hp hq hj, hpreds, ?_⟩
  intro hlen
  rw [hpreds, hlen, List.length_map]
  exact topkPairs_length hpk

/-- Witness for `fill_mask_topk_descending`: a concrete successful call
with `topk = 2` over a four-entry probability vector. -/
theorem fill_mask_topk_descending_witness :
    ∃ masked_index row pairs,
      tensorItem (maskPositions (testCtx.encodeNoSpecial
          (wrapText "The capital of France is <mask>." "en_XX"))
          testCtx.mask_token_id) = .ok masked_index ∧
      tensorIndex (testCtx.forward (testCtx.encodeNoSpecial
          (wrapText "The capital of France is <mask>." "en_XX")))
          masked_index = .ok row ∧
      topkPairs (testCtx.softmax row) 2 = .ok pairs ∧
      pairs.length = 2 ∧
      (pairs.map Prod.fst).Sorted (fun a b => b ≤ a) ∧
      (∀ p ∈ pairs, (testCtx.softmax row)[p.2]? = some p.1) ∧
      (∀ p ∈ pairs, ∀ j q, (testCtx.softmax row)[j]? = some q →
        j ∉ pairs.map Prod.snd → q ≤ p.1) ∧
      (["t0", "t2"] : List String) = pySplit (testCtx.decode (pairs.map Prod.snd)) ∧
      ((pySplit (testCtx.decode (pairs.map Prod.snd))).length =
          (pairs.map Prod.snd).length → (["t0", "t2"] : List String).length = 2) :=
  fill_mask_topk_descending testCtx stList "The capital of France is <mask>."
    "en_XX" 2 ["t0", "t2"] rfl

/-- A mask-position tensor whose element count is not one fails the
`.item()` conversion with the runtime error. -/
theorem tensorItem_length_ne_one (l : List Nat) (h : l.length ≠ 1) :
    tensorItem l = .error (.runtimeError (tensorMsg l.length)) := by
  match l with
  | [] => rfl
  | [x] => exact absurd rfl h
  | x :: y :: t => rfl

/-- C8: when the language check passes but the mask token appears zero
or several times in the encoded sequence, the `.item()` position lookup
raises a runtime error (not a named validation error) that is caught at
the boundary, logged, and surfaced as the generic 500 service error. -/
theorem fill_mask_bad_mask_count (ctx : Ctx) (st : St)
    (text src_lang : String) (k : Nat)
    (hsl : pyNotIn src_lang st.binding = .ok false)
    (hcount : (maskPositions (ctx.encodeNoSpecial (wrapText text src_lang))
        ctx.mask_token_id).length ≠ 1) :
    (fillMaskBody ctx text src_lang k st).1 = .error (.runtimeError (tensorMsg
      (maskPositions (ctx.encodeNoSpecial (wrapText text src_lang))
        ctx.mask_token_id).length)) ∧
    (fill_mask ctx text src_lang k st).result = .error ⟨500, tensorMsg
      (maskPositions (ctx.encodeNoSpecial (wrapText text src_lang))
        ctx.mask_token_id).length⟩ ∧
    (fill_mask ctx text src_lang k st).log = [formatExc (.runtimeError (tensorMsg
      (maskPositions (ctx.encodeNoSpecial (wrapText text src_lang))
        ctx.mask_token_id).length))] := by
  have hti := tensorItem_length_ne_one _ hcount
  have hbody : (fillMaskBody ctx text src_lang k st).1 =
      .error (.runtimeError (tensorMsg
        (maskPositions (ctx.encodeNoSpecial (wrapText text src_lang))
          ctx.mask_token_id).length)) := by
    unfold fillMaskBody
    rw [hsl]
    dsimp only
    rw [hti]
  have hw := wrap_error (fillMaskBody ctx text src_lang k st) _ hbody
  exact ⟨hbody, hw.1, hw.2⟩

/-- Witness for `fill_mask_bad_mask_count`: an encoding with zero mask
occurrences yields the generic 500 with the conversion message. -/
theorem fill_mask_bad_mask_count_witness :
    (fill_mask testCtxNoMask "hello" "en_XX" 1 stList).result =
      .error ⟨500, tensorMsg (maskPositions (testCtxNoMask.encodeNoSpecial
        (wrapText "hello" "en_XX")) testCtxNoMask.mask_token_id).length⟩ :=
  (fill_mask_bad_mask_count testCtxNoMask stList "hello" "en_XX" 1 rfl
    (by decide)).2.1

/-- C9: once the language check passes, the body of `fill_mask` follows
exactly the spec's pipeline — wrap with markers and language tag, encode
without special tokens, one forward pass, mask-position lookup, softmax
at that position, topk selection, decode and split — and the call never
uses the model's generation procedure. -/
theorem fill_mask_refines_spec_steps (ctx : Ctx) (st : St)
    (text src_lang : String) (k : Nat)
    (hsl : pyNotIn src_lang st.binding = .ok false) :
    (fillMaskBody ctx text src_lang k st).1 =
      fillMaskSpecSteps ctx text src_lang k ∧
    ∀ g, fill_mask { ctx with generate := g } text src_lang k st =
      fill_mask ctx text src_lang k st := by
  refine ⟨?_, fun g => rfl⟩
  unfold fillMaskBody fillMaskSpecSteps wrapText
  rw [hsl]
  dsimp only
  cases hmi : tensorItem (maskPositions (ctx.encodeNoSpecial
      ("</s> " ++ text ++ " </s> " ++ src_lang)) ctx.mask_token_id) with
  | error e => rfl
  | ok masked_index =>
    dsimp only
    cases hrow : tensorIndex (ctx.forward (ctx.encodeNoSpecial
        ("</s> " ++ text ++ " </s> " ++ src_lang))) masked_index with
    | error e => rfl
    | ok row =>
      dsimp only
      cases hpk : topkPairs (ctx.softmax row) k with
      | error e => rfl
      | ok pairs => rfl

/-- Witness for `fill_mask_refines_spec_steps`: the concrete context and
module-list state. -/
theorem fill_mask_refines_spec_steps_witness :
    (fillMaskBody testCtx "The capital of France is <mask>." "en_XX" 2 stList).1 =
      fillMaskSpecSteps testCtx "The capital of France is <mask>." "en_XX" 2 :=
  (fill_mask_refines_spec_steps testCtx stList
    "The capital of France is <mask>." "en_XX" 2 rfl).1

/-- C4: every failing call of `translate` or `fill_mask` — validation
failure or exception from any later step — is caught at the operation
boundary, logged with the diagnostic trace, and re-raised as HTTP 500
whose detail is the original error message; no other status is ever
produced. -/
theorem failing_calls_surface_as_500 (ctx : Ctx) (st : St)
    (text : TextInput) (src_lang tgt_lang ftext fsrc : String) (k : Nat) :
    (∀ e, (translateBody ctx text src_lang tgt_lang st).1 = .error e →
        (translate ctx text src_lang tgt_lang st).result = .error ⟨500, e.str⟩ ∧
        (translate ctx text src_lang tgt_lang st).log = [formatExc e]) ∧
    (∀ he, (translate ctx text src_lang tgt_lang st).result = .error he →
        he.status_code = 500) ∧
    (∀ e, (fillMaskBody ctx ftext fsrc k st).1 = .error e →
        (fill_mask ctx ftext fsrc k st).result = .error ⟨500, e.str⟩ ∧
        (fill_mask ctx ftext fsrc k st).log = [formatExc e]) ∧
    (∀ he, (fill_mask ctx ftext fsrc k st).result = .error he →
        he.status_code = 500) :=
  ⟨fun e h => wrap_error _ e h,
   fun he h => wrap_status _ he h,
   fun e h => wrap_error _ e h,
   fun he h => wrap_status _ he h⟩

/-- Witness for `failing_calls_surface_as_500`: a concrete validation
failure is logged and surfaced as 500 with the validation message. -/
theorem failing_calls_surface_as_500_witness :
    (translate testCtx (.str "hi") "zz_ZZ" "fr_XX" stList).result =
      .error ⟨500, "Unsupported source language: zz_ZZ"⟩ ∧
    (translate testCtx (.str "hi") "zz_ZZ" "fr_XX" stList).log =
      [formatExc (.valueError "Unsupported source language: zz_ZZ")] :=
  (failing_calls_surface_as_500 testCtx stList (.str "hi") "zz_ZZ" "fr_XX"
    "t" "en_XX" 1).1 (.valueError "Unsupported source language: zz_ZZ") rfl

/-- C10: `translate` changes at most the tokenizer's source-language
field (to the call's `src_lang`); the module-level binding and the model
handle are never written; `fill_mask` and `supported_languages` change
no shared state at all. -/
theorem actions_frame (ctx : Ctx) (st : St) (text : TextInput)
    (src_lang tgt_lang ftext fsrc : String) (k : Nat) :
    ((translate ctx text src_lang tgt_lang st).state.binding = st.binding ∧
      (translate ctx text src_lang tgt_lang st).state.modelHandle = st.modelHandle ∧
      ((translate ctx text src_lang tgt_lang st).state.src_lang = st.src_lang ∨
        (translate ctx text src_lang tgt_lang st).state.src_lang = src_lang)) ∧
    (fill_mask ctx ftext fsrc k st).state = st ∧
    (supported_languages_action st).state = st := by
  have hw : (translate ctx text src_lang tgt_lang st).state =
      (translateBody ctx text src_lang tgt_lang st).2 := wrap_state _
  refine ⟨?_, (wrap_state _).trans (fillMaskBody_state ctx ftext fsrc k st), rfl⟩
  rcases translateBody_state ctx text src_lang tgt_lang st with h | h <;> rw [hw, h]
  · exact ⟨rfl, rfl, Or.inl rfl⟩
  · exact ⟨rfl, rfl, Or.inr rfl⟩

/-- C5: a single string is normalized into a one-element batch and
processed identically: the call on `s` equals the call on `[s]` in
result, log and final state, for every context and state. -/
theorem translate_single_eq_singleton_batch (ctx : Ctx) (st : St)
    (s src_lang tgt_lang : String) :
    translate ctx (.str s) src_lang tgt_lang st =
      translate ctx (.list [s]) src_lang tgt_lang st := rfl

end Translator
